import Mathlib

/-!
Verification of the qosst-hal hardware abstraction layer.

This file gives a shallow embedding, in Lean, of the parts of the
repository the claims are about:

* `need_modules` (src/qosst_hal/utils.py) — the optional-dependency guard;
* `list_hardware` / `list_hardware_str` (src/qosst_hal/utils.py) — the registry;
* `FakeADC` and `LoadingADC` (src/qosst_hal/adc.py);
* `FakeDAC` (src/qosst_hal/dac.py);
* `FakeSwitch` (src/qosst_hal/switch.py);
* `FakeVoltMeter`, `FakePowerMeter`, `FakeAmpereMeter`
  (voltmeter.py, powermeter.py, amperemeter.py).

Modelling conventions:

* Python floats are modelled as rationals (ℚ); all numeric literals the
  claims evaluate (2.0, 10.0, 0.0, 1e-6) are exact in both models.
* A Python exception is a `PyError` value; a fallible operation returns
  `Except PyError α`.  An attribute that is only assigned by a later
  method call (e.g. `FakeADC.acquisition_time`, set only by
  `set_acquisition_parameters`) is an `Option` field, `none` meaning
  "not yet assigned": reading it while `none` is Python's
  `AttributeError`.
* Keyword-argument bags (`**kwargs`) are association lists;
  `kwargs.get(k, d)` is `(kwargs.lookup k).getD d`.
* A Python class object (for the dependency guard) is a `PyClass`:
  its name, its method-resolution order (list of class names, the class
  itself first, as in Python), its constructor, and its other methods.
  `issubclass d c` is membership of `c`'s name in `d`'s mro.
* The ambient environment (installed modules for `find_spec`, importable
  packages for `importlib`, the file system for `np.load`) is passed as
  an explicit function argument.
-/

namespace QosstHal

/-- A Python exception, with its payload. -/
inductive PyError where
  | attributeError (attr : String)
  | typeError (msg : String)
  | valueError (msg : String)
deriving DecidableEq

/-- A Python class object, as needed by `need_modules`
(src/qosst_hal/utils.py lines 181-213): its `__name__`, its
method-resolution order (the class itself first, then its bases, as
Python's `cls.__mro__` lists them, identified by name), its constructor
`__init__` and its remaining methods (inherited by a subclass that does
not override them). -/
structure PyClass where
  name : String
  mro : List String
  construct : List ℚ → Except PyError Unit
  methods : String → List ℚ → Option ℚ

/-- Python's `issubclass(d, c)`: `c` occurs in `d`'s method-resolution
order. -/
def issubclass (d c : PyClass) : Prop := c.name ∈ d.mro

instance (d c : PyClass) : Decidable (issubclass d c) := by
  unfold issubclass; infer_instance

/-- A single-quote character, for rendering Python `repr` of strings. -/
def squote : String := String.singleton (Char.ofNat 39)

/-- Python `repr` of a string (quoting; escaping is not needed for the
module names at hand). -/
def pyStrRepr (s : String) : String := squote ++ s ++ squote

/-- Join strings with a separator (as Python uses between tuple
elements). -/
def joinSep (sep : String) : List String → String
  | [] => ""
  | [x] => x
  | x :: xs => x ++ (sep ++ joinSep sep xs)

/-- Python `repr` of a tuple of strings, as interpolated by the f-string
`f"... {modules} ..."` in `need_modules`. -/
def pyTupleRepr (xs : List String) : String :=
  match xs with
  | [] => "()"
  | [x] => "(" ++ pyStrRepr x ++ ",)"
  | _ => "(" ++ joinSep ", " (xs.map pyStrRepr) ++ ")"

/-- The 28 spaces that the backslash line-continuation inside the
f-string of `need_modules` (utils.py line 208-209) leaves in the
message. -/
def contSpaces : String := String.mk (List.replicate 28 (Char.ofNat 32))

/-- The message of the `TypeError` raised by `ReplacementClass.__init__`
(utils.py lines 207-210). -/
def missingDepMessage (name : String) (modules : List String) : String :=
  "You are trying to use the class " ++ name ++
    " which requires the optional " ++ contSpaces ++ "modules : " ++
    pyTupleRepr modules ++ " and at least one is not installed."

/-- `need_modules(*modules)` applied to a class
(src/qosst_hal/utils.py lines 158-215).  `find_spec m` models
`importlib.util.find_spec(m) is not None`.  The decorator itself never
raises: it returns a class.  When some module is missing it returns
`ReplacementClass`, a subclass of the initial class whose `__init__`
always raises; otherwise it returns the initial class itself. -/
def need_modules (modules : List String) (find_spec : String → Bool)
    (initial_class : PyClass) : PyClass :=
  let res := modules.foldl (fun r m => r && find_spec m) true
  if res = false then
    { name := "ReplacementClass"
      mro := "ReplacementClass" :: initial_class.mro
      construct := fun _ =>
        .error (.typeError (missingDepMessage initial_class.name modules))
      methods := initial_class.methods }
  else
    initial_class

/- Helper lemmas about the availability fold and substring containment. -/

theorem foldl_and_eq_all (f : String → Bool) (l : List String) (b : Bool) :
    l.foldl (fun r m => r && f m) b = (b && l.all f) := by
  induction l generalizing b with
  | nil => simp
  | cons x xs ih => simp [List.foldl_cons, ih, Bool.and_assoc]

theorem infix_append_right {x y : List Char} (z : List Char)
    (h : x <:+: y) : x <:+: y ++ z := by
  obtain ⟨s, t, rfl⟩ := h
  exact ⟨s, t ++ z, by simp⟩

theorem infix_append_left {x y : List Char} (z : List Char)
    (h : x <:+: y) : x <:+: z ++ y := by
  obtain ⟨s, t, rfl⟩ := h
  exact ⟨z ++ s, t, by simp⟩

theorem str_infix_append_right {x : List Char} {y : String} (z : String)
    (h : x <:+: y.data) : x <:+: (y ++ z).data := by
  rw [String.data_append]; exact infix_append_right _ h

theorem str_infix_append_left {x : List Char} {y : String} (z : String)
    (h : x <:+: y.data) : x <:+: (z ++ y).data := by
  rw [String.data_append]; exact infix_append_left _ h

theorem mem_infix_joinSep (sep : String) (m : String) :
    ∀ (l : List String), m ∈ l → m.data <:+: (joinSep sep l).data := by
  intro l
  induction l with
  | nil => intro h; cases h
  | cons x xs ih =>
    intro hm
    cases xs with
    | nil =>
      have : m = x := by simpa using hm
      subst this
      simp [joinSep]
    | cons y ys =>
      rcases List.mem_cons.mp hm with h | h
      · subst h
        show m.data <:+: (m ++ (sep ++ joinSep sep (y :: ys))).data
        exact str_infix_append_right _ (List.infix_refl _)
      · show m.data <:+: (x ++ (sep ++ joinSep sep (y :: ys))).data
        exact str_infix_append_left _ (str_infix_append_left _ (ih h))

theorem mem_infix_pyStrRepr (m : String) : m.data <:+: (pyStrRepr m).data := by
  show m.data <:+: (squote ++ m ++ squote).data
  exact str_infix_append_right _ (str_infix_append_left _ (List.infix_refl _))

theorem mem_infix_pyTupleRepr (m : String) (l : List String) (h : m ∈ l) :
    m.data <:+: (pyTupleRepr l).data := by
  match l with
  | [] => cases h
  | [x] =>
    have : m = x := by simpa using h
    subst this
    show m.data <:+: ("(" ++ pyStrRepr m ++ ",)").data
    exact str_infix_append_right _
      (str_infix_append_left _ (mem_infix_pyStrRepr m))
  | x :: y :: ys =>
    show m.data <:+: ("(" ++ joinSep ", " ((x :: y :: ys).map pyStrRepr) ++ ")").data
    refine str_infix_append_right _ (str_infix_append_left _ ?_)
    exact List.IsInfix.trans (mem_infix_pyStrRepr m)
      (mem_infix_joinSep _ _ _ (List.mem_map_of_mem pyStrRepr h))

theorem mem_infix_missingDepMessage (m name : String) (l : List String)
    (h : m ∈ l) : m.data <:+: (missingDepMessage name l).data := by
  unfold missingDepMessage
  exact str_infix_append_right _ (str_infix_append_left _
    (mem_infix_pyTupleRepr m l h))

/-- Claim C1: wrapping a class with `need_modules` when at least one of
the named modules is unavailable yields a class whose construction fails,
for every argument list, with a `TypeError` whose message names the
missing module (the message interpolates the whole module tuple, so the
missing name occurs in it as a substring), and which is a subclass of the
original class.  The wrapping itself never fails: `need_modules` is a
total function returning a class. -/
theorem need_modules_missing_fails (modules : List String)
    (find_spec : String → Bool) (c : PyClass) (m : String)
    (hm : m ∈ modules) (hmiss : find_spec m = false)
    (hwf : c.name ∈ c.mro) :
    (∀ args, (need_modules modules find_spec c).construct args =
      .error (.typeError (missingDepMessage c.name modules))) ∧
    m.data <:+: (missingDepMessage c.name modules).data ∧
    issubclass (need_modules modules find_spec c) c := by
  have hall : modules.all find_spec = false := by
    rw [List.all_eq_false]
    exact ⟨m, hm, by simp [hmiss]⟩
  have hres : modules.foldl (fun r m => r && find_spec m) true = false := by
    rw [foldl_and_eq_all, hall, Bool.and_false]
  refine ⟨?_, mem_infix_missingDepMessage m c.name modules hm, ?_⟩
  · intro args
    simp [need_modules, hres]
  · simp [need_modules, hres, issubclass]
    exact Or.inr hwf

/-- Witness for C1 at a concrete input: a class `Foo` wrapped with the
single unavailable module `scipy`. -/
theorem need_modules_missing_fails_witness :
    ("scipy" ∈ ["scipy"]) ∧
    ((fun _ => false : String → Bool) "scipy" = false) ∧
    ("Foo" ∈ ["Foo", "QOSSTHardware"]) ∧
    ((∀ args,
        (need_modules ["scipy"] (fun _ => false)
          ⟨"Foo", ["Foo", "QOSSTHardware"], fun _ => .ok (),
            fun _ _ => none⟩).construct args =
          .error (.typeError (missingDepMessage "Foo" ["scipy"]))) ∧
      "scipy".data <:+: (missingDepMessage "Foo" ["scipy"]).data ∧
      issubclass
        (need_modules ["scipy"] (fun _ => false)
          ⟨"Foo", ["Foo", "QOSSTHardware"], fun _ => .ok (),
            fun _ _ => none⟩)
        ⟨"Foo", ["Foo", "QOSSTHardware"], fun _ => .ok (),
          fun _ _ => none⟩) :=
  ⟨by decide, rfl, by decide,
    need_modules_missing_fails ["scipy"] (fun _ => false)
      ⟨"Foo", ["Foo", "QOSSTHardware"], fun _ => .ok (), fun _ _ => none⟩
      "scipy" (by decide) rfl (by decide)⟩

/-- Claim C2: wrapping a class with `need_modules` when every named
module is available returns the original class itself, unmodified
(Python's `return initial_class`): construction and every method are
those of the unwrapped class. -/
theorem need_modules_available_identity (modules : List String)
    (find_spec : String → Bool) (c : PyClass)
    (h : ∀ m ∈ modules, find_spec m = true) :
    need_modules modules find_spec c = c := by
  have hall : modules.all find_spec = true := List.all_eq_true.mpr h
  have hres : modules.foldl (fun r m => r && find_spec m) true = true := by
    rw [foldl_and_eq_all, hall, Bool.and_true]
  simp [need_modules, hres]

/-- Witness for C2 at a concrete input: a class wrapped with the
available modules `scipy` and `numpy` is returned unchanged. -/
theorem need_modules_available_identity_witness :
    (∀ m ∈ ["scipy", "numpy"], (fun _ => true : String → Bool) m = true) ∧
    need_modules ["scipy", "numpy"] (fun _ => true)
        ⟨"Bar", ["Bar", "QOSSTHardware"], fun _ => .ok (), fun _ _ => none⟩ =
      ⟨"Bar", ["Bar", "QOSSTHardware"], fun _ => .ok (), fun _ _ => none⟩ :=
  ⟨fun _ _ => rfl,
    need_modules_available_identity ["scipy", "numpy"] (fun _ => true)
      ⟨"Bar", ["Bar", "QOSSTHardware"], fun _ => .ok (), fun _ _ => none⟩
      (fun _ _ => rfl)⟩

/-!  ADCs (src/qosst_hal/adc.py). -/

/-- Python `int()` applied to a numeric value: truncation toward zero. -/
def pyInt (q : ℚ) : ℤ := if 0 ≤ q then ⌊q⌋ else ⌈q⌉

/-- `np.random.normal(loc=loc, scale=scale, size=size)`.  A normal draw
is `loc + scale * z i` where `z` is the stream of standard-normal
variates the generator produces; numpy rejects a negative `size` with a
`ValueError`. -/
def np_random_normal (loc scale : ℚ) (size : ℤ) (z : ℕ → ℚ) :
    Except PyError (List ℚ) :=
  if size < 0 then .error (.valueError "negative dimensions are not allowed")
  else .ok ((List.range size.toNat).map (fun i => loc + scale * z i))

/-- `FakeADC` (adc.py lines 108-223).  `__init__` only assigns
`channels`; `acquisition_time` and `target_rate` are assigned by
`set_acquisition_parameters` only, hence `Option` fields. -/
structure FakeADC where
  channels : List ℤ
  acquisition_time : Option ℚ := none
  target_rate : Option ℚ := none

/-- `FakeADC.__init__(_dev_id, channels)` (adc.py line 121). -/
def FakeADC.init (_dev_id : ℤ) (channels : List ℤ) : FakeADC :=
  { channels := channels }

/-- `FakeADC._set_acquisition_parameters` (adc.py lines 151-162). -/
def FakeADC.set_acquisition_parameters_impl (adc : FakeADC)
    (acquisition_time target_rate : ℚ) : FakeADC :=
  { adc with acquisition_time := some acquisition_time,
             target_rate := some target_rate }

/-- `FakeADC.set_acquisition_parameters(**kwargs)` (adc.py lines
139-149): `kwargs.get("acquisition_time", 0)` and
`kwargs.get("target_rate", 0)`. -/
def FakeADC.set_acquisition_parameters (adc : FakeADC)
    (kwargs : List (String × ℚ)) : FakeADC :=
  adc.set_acquisition_parameters_impl
    ((kwargs.lookup "acquisition_time").getD 0)
    ((kwargs.lookup "target_rate").getD 0)

/-- `FakeADC._convert` (adc.py lines 179-189): identity. -/
def FakeADC.convert_impl (data : List ℚ) : List ℚ := data

/-- `FakeADC.get_data(**kwargs)` (adc.py lines 191-220).  `var` defaults
to 1; one normal sample array per channel, each of
`int(acquisition_time * target_rate)` samples with `loc=0.0` and
`scale=np.sqrt(var)` (square root modelled by `Rat.sqrt`, exact at the
values the claims evaluate); reading `acquisition_time` or `target_rate`
before `set_acquisition_parameters` is an `AttributeError`.  The stream
`z ch` supplies the standard-normal variates of the draw for the
iteration at position `ch` of the channel loop. -/
def FakeADC.get_data (adc : FakeADC) (kwargs : List (String × ℚ))
    (z : ℕ → ℕ → ℚ) : Except PyError (List (List ℚ)) :=
  let var : ℚ := (kwargs.lookup "var").getD 1
  match adc.acquisition_time with
  | none => .error (.attributeError "acquisition_time")
  | some t =>
    match adc.target_rate with
    | none => .error (.attributeError "target_rate")
    | some r =>
      (List.range adc.channels.length).mapM (fun ch => do
        pure (FakeADC.convert_impl
          (← np_random_normal 0 (Rat.sqrt var) (pyInt (t * r)) (z ch))))

/-- `LoadingADC` (adc.py lines 226-311).  `paths` is assigned only by
`set_acquisition_parameters`, `data` only by `trigger`. -/
structure LoadingADC where
  channels : List ℤ
  paths : Option (List String) := none
  data : Option (List (List ℚ)) := none

/-- `LoadingADC.__init__(_dev_id, channels)` (adc.py line 235). -/
def LoadingADC.init (_dev_id : ℤ) (channels : List ℤ) : LoadingADC :=
  { channels := channels }

/-- `LoadingADC._set_acquisition_parameters` (adc.py lines 263-270). -/
def LoadingADC.set_acquisition_parameters_impl (adc : LoadingADC)
    (paths : List String) : LoadingADC :=
  { adc with paths := some paths }

/-- `LoadingADC.set_acquisition_parameters(**kwargs)` (adc.py lines
253-261): `kwargs.get("paths", [])`. -/
def LoadingADC.set_acquisition_parameters (adc : LoadingADC)
    (kwargs : List (String × List String)) : LoadingADC :=
  adc.set_acquisition_parameters_impl ((kwargs.lookup "paths").getD [])

/-- `LoadingADC.trigger` (adc.py lines 282-287): loads
`[np.load(path) for path in self.paths]`.  The file system is the map
`np_load` from a path to the array stored there (the claims assume the
files exist and load); reading `paths` before
`set_acquisition_parameters` is an `AttributeError`. -/
def LoadingADC.trigger (adc : LoadingADC) (np_load : String → List ℚ) :
    Except PyError LoadingADC :=
  match adc.paths with
  | none => .error (.attributeError "paths")
  | some ps => .ok { adc with data := some (ps.map np_load) }

/-- `LoadingADC._convert` (adc.py lines 289-299): identity. -/
def LoadingADC.convert_impl (data : List ℚ) : List ℚ := data

/-- `LoadingADC.get_data` (adc.py lines 301-308): reading `data` before
`trigger` is an `AttributeError`. -/
def LoadingADC.get_data (adc : LoadingADC) :
    Except PyError (List (List ℚ)) :=
  match adc.data with
  | none => .error (.attributeError "data")
  | some ds => .ok (ds.map LoadingADC.convert_impl)

theorem mapM_ok_of_ok {α β : Type} {f : α → Except PyError β} {g : α → β}
    (h : ∀ a, f a = .ok (g a)) :
    ∀ l : List α, l.mapM f = .ok (l.map g) := by
  intro l
  induction l with
  | nil => rfl
  | cons x xs ih =>
    rw [List.mapM_cons, List.map_cons, h x]
    simp only [ih]
    rfl

/-- Claim C3: a `FakeADC` over a 3-element channel list, configured with
`acquisition_time = 2.0` and `target_rate = 10.0`, returns from
`get_data` exactly 3 sequences of length `int(2.0 * 10.0) = 20` each,
for every keyword bag and random stream; and when the bag carries
`var = 0` every sample of every sequence equals 0 exactly. -/
theorem fakeADC_get_data_shape (channels : List ℤ)
    (hch : channels.length = 3) (kwargs : List (String × ℚ))
    (z : ℕ → ℕ → ℚ) :
    ∃ out,
      ((FakeADC.init 0 channels).set_acquisition_parameters
          [("acquisition_time", 2), ("target_rate", 10)]).get_data kwargs z
        = .ok out ∧
      out.length = 3 ∧ (∀ s ∈ out, s.length = 20) ∧
      ((kwargs.lookup "var").getD 1 = 0 → ∀ s ∈ out, ∀ v ∈ s, v = 0) := by
  have hsize : pyInt ((2 : ℚ) * 10) = 20 := by
    norm_num [pyInt]
  have hdraw : ∀ ch, np_random_normal 0
      (Rat.sqrt ((kwargs.lookup "var").getD 1)) (pyInt ((2 : ℚ) * 10))
      (z ch) =
      .ok ((List.range 20).map
        (fun i => 0 + Rat.sqrt ((kwargs.lookup "var").getD 1) * z ch i)) := by
    intro ch
    rw [hsize]
    rfl
  refine ⟨(List.range 3).map (fun ch => (List.range 20).map
      (fun i => 0 + Rat.sqrt ((kwargs.lookup "var").getD 1) * z ch i)),
    ?_, by simp, ?_, ?_⟩
  · show (List.range channels.length).mapM _ = _
    rw [hch]
    refine mapM_ok_of_ok (fun ch => ?_) (List.range 3)
    show np_random_normal 0 (Rat.sqrt ((kwargs.lookup "var").getD 1))
        (pyInt ((2 : ℚ) * 10)) (z ch) >>=
        (fun x => pure (FakeADC.convert_impl x)) =
      Except.ok ((List.range 20).map
        (fun i => 0 + Rat.sqrt ((kwargs.lookup "var").getD 1) * z ch i))
    rw [hdraw ch]
    rfl
  · intro s hs
    rcases List.mem_map.mp hs with ⟨ch, _, rfl⟩
    simp
  · intro hvar s hs v hv
    rcases List.mem_map.mp hs with ⟨ch, _, rfl⟩
    rcases List.mem_map.mp hv with ⟨i, _, rfl⟩
    rw [hvar]
    have : Rat.sqrt 0 = 0 := by decide
    rw [this]
    ring

/-- Witness for C3 at a concrete input: channels `[0, 1, 2]`, the bag
`var = 0`, and the constant standard-normal stream 5. -/
theorem fakeADC_get_data_shape_witness :
    (([0, 1, 2] : List ℤ).length = 3) ∧
    ∃ out,
      ((FakeADC.init 0 [0, 1, 2]).set_acquisition_parameters
          [("acquisition_time", 2), ("target_rate", 10)]).get_data
          [("var", 0)] (fun _ _ => 5)
        = .ok out ∧
      out.length = 3 ∧ (∀ s ∈ out, s.length = 20) ∧
      ((([("var", (0 : ℚ))].lookup "var").getD 1 = 0 →
        ∀ s ∈ out, ∀ v ∈ s, v = 0) ) :=
  ⟨by decide,
    fakeADC_get_data_shape [0, 1, 2] (by decide) [("var", 0)] (fun _ _ => 5)⟩

/-- Claim C4: a `LoadingADC` configured with `N` paths returns from
`get_data`, after `trigger`, exactly `N` sequences equal to the raw
contents loaded from the files, unchanged and in order (the `_convert`
hook is the identity). -/
theorem loadingADC_roundtrip (channels : List ℤ) (paths : List String)
    (np_load : String → List ℚ) :
    ∃ adc2,
      ((LoadingADC.init 0 channels).set_acquisition_parameters
          [("paths", paths)]).trigger np_load = .ok adc2 ∧
      adc2.get_data = .ok (paths.map np_load) ∧
      (paths.map np_load).length = paths.length := by
  refine ⟨_, rfl, ?_, by simp⟩
  exact congrArg Except.ok (List.map_id (paths.map np_load))

/-!  Registry (src/qosst_hal/utils.py lines 31-95). -/

/-- A Python object as seen by `inspect.getmembers`: whether it is a
class, and if so its class name and method-resolution order (class
names, the class itself first). -/
structure PyObj where
  isClass : Bool
  className : String
  mro : List String

/-- A submodule: its name and its members, each a binding name paired
with the bound object, in the order `inspect.getmembers` yields them. -/
structure PyModule where
  name : String
  members : List (String × PyObj)

/-- An importable package: its direct submodules, in the order
`pkgutil.iter_modules` yields them. -/
structure PyPackage where
  submodules : List PyModule

/-- The filter of the inner loop of `list_hardware` (utils.py lines
63-69): `inspect.isclass(obj) and issubclass(obj, QOSSTHardware) and
obj != QOSSTHardware`. -/
def is_hardware_class (p : String × PyObj) : Bool :=
  p.2.isClass && p.2.mro.contains "QOSSTHardware" &&
    !(p.2.className == "QOSSTHardware")

/-- `list_hardware(package)` (utils.py lines 31-70).  `env` models
Python's module loading: the package name is mapped to the package if it
can be loaded, `none` if `importlib.import_module` raises
`ModuleNotFoundError` (which the function catches, returning the empty
dict).  The result dict, in insertion order, assigns to every submodule
the binding names of its qualifying members. -/
def list_hardware (env : String → Option PyPackage) (package : String) :
    List (String × List String) :=
  match env package with
  | none => []
  | some pkg =>
    pkg.submodules.map (fun sub =>
      (sub.name, (sub.members.filter is_hardware_class).map Prod.fst))

/-- Python `s * n` on a string: `n` copies of `s`. -/
def pyRepeat (s : String) (n : ℕ) : String :=
  String.join (List.replicate n s)

/-- `list_hardware_str(package)` (utils.py lines 73-95): header, then
one section per submodule with a non-empty hardware list (name,
underline of `-` of the same length, one `* name` line per class, blank
line); submodules with no qualifying class are skipped. -/
def list_hardware_str (env : String → Option PyPackage)
    (package : String) : String :=
  let res := "Hardware of package " ++ package ++ "\n\n"
  (list_hardware env package).foldl
    (fun acc p =>
      if p.2.isEmpty then acc
      else
        (p.2.foldl (fun a n => a ++ "* " ++ n ++ "\n")
          (acc ++ p.1 ++ "\n" ++ pyRepeat "-" p.1.length ++ "\n")) ++ "\n")
    res

/-- Claim C5: for a package with submodules `A` and `B`, where `A` has
exactly two qualifying members and `B` none, `list_hardware` maps `A` to
exactly those two binding names and maps `B` to the empty list (it is
present, with an empty list, not omitted), and `list_hardware_str` is
exactly the header followed by `A`'s section with both names — so it
contains no section for `B`. -/
theorem list_hardware_two_and_zero (env : String → Option PyPackage)
    (p : String) (pkg : PyPackage) (a b : PyModule)
    (henv : env p = some pkg) (hsub : pkg.submodules = [a, b])
    (n1 n2 : String) (o1 o2 : PyObj)
    (hA : a.members.filter is_hardware_class = [(n1, o1), (n2, o2)])
    (hB : b.members.filter is_hardware_class = []) :
    list_hardware env p = [(a.name, [n1, n2]), (b.name, [])] ∧
    list_hardware_str env p =
      "Hardware of package " ++ p ++ "\n\n" ++ a.name ++ "\n" ++
        pyRepeat "-" a.name.length ++ "\n" ++ "* " ++ n1 ++ "\n" ++
        "* " ++ n2 ++ "\n" ++ "\n" := by
  have hlh : list_hardware env p = [(a.name, [n1, n2]), (b.name, [])] := by
    simp [list_hardware, henv, hsub, hA, hB]
  refine ⟨hlh, ?_⟩
  rw [list_hardware_str, hlh]
  rfl

/-- A concrete submodule for exercising the registry: classes `FakeADC`
and `GenericADC`, the excluded contract class `QOSSTHardware`, and a
non-class member. -/
def testAdcModule : PyModule :=
  ⟨"adc", [("FakeADC", ⟨true, "FakeADC",
      ["FakeADC", "GenericADC", "QOSSTHardware"]⟩),
    ("GenericADC", ⟨true, "GenericADC", ["GenericADC", "QOSSTHardware"]⟩),
    ("QOSSTHardware", ⟨true, "QOSSTHardware", ["QOSSTHardware"]⟩),
    ("logger", ⟨false, "", []⟩)]⟩

/-- A concrete submodule with no qualifying class. -/
def testUtilsModule : PyModule := ⟨"utils", [("helper", ⟨false, "", []⟩)]⟩

/-- A concrete package with the two submodules above. -/
def testPackage : PyPackage := ⟨[testAdcModule, testUtilsModule]⟩

/-- Witness for C5 at a concrete input: `testPackage`, whose submodule
`adc` holds exactly the two qualifying classes `FakeADC` and
`GenericADC` and whose submodule `utils` holds none. -/
theorem list_hardware_two_and_zero_witness :
    ((fun _ => some testPackage : String → Option PyPackage) "qosst_hal" =
      some testPackage) ∧
    (testPackage.submodules = [testAdcModule, testUtilsModule]) ∧
    (testAdcModule.members.filter is_hardware_class =
      [("FakeADC", ⟨true, "FakeADC",
          ["FakeADC", "GenericADC", "QOSSTHardware"]⟩),
        ("GenericADC", ⟨true, "GenericADC",
          ["GenericADC", "QOSSTHardware"]⟩)]) ∧
    (testUtilsModule.members.filter is_hardware_class = []) ∧
    list_hardware (fun _ => some testPackage) "qosst_hal" =
      [("adc", ["FakeADC", "GenericADC"]), ("utils", [])] ∧
    list_hardware_str (fun _ => some testPackage) "qosst_hal" =
      "Hardware of package " ++ "qosst_hal" ++ "\n\n" ++ "adc" ++ "\n" ++
        pyRepeat "-" "adc".length ++ "\n" ++ "* " ++ "FakeADC" ++ "\n" ++
        "* " ++ "GenericADC" ++ "\n" ++ "\n" := by
  refine ⟨rfl, rfl, rfl, rfl, ?_⟩
  have h := list_hardware_two_and_zero (fun _ => some testPackage)
    "qosst_hal" testPackage testAdcModule testUtilsModule rfl rfl
    "FakeADC" "GenericADC"
    ⟨true, "FakeADC", ["FakeADC", "GenericADC", "QOSSTHardware"]⟩
    ⟨true, "GenericADC", ["GenericADC", "QOSSTHardware"]⟩
    rfl rfl
  exact h

/-- Claim C6: when the root package cannot be imported
(`ModuleNotFoundError`, modelled by `env package = none`),
`list_hardware` returns the empty mapping; the failure is not
propagated — the embedding returns a value, never an exception. -/
theorem list_hardware_import_failure (env : String → Option PyPackage)
    (package : String) (h : env package = none) :
    list_hardware env package = [] := by
  simp [list_hardware, h]

/-- Witness for C6 at a concrete input: an environment in which no
package is importable. -/
theorem list_hardware_import_failure_witness :
    ((fun _ => none : String → Option PyPackage) "qosst_hal" = none) ∧
    list_hardware (fun _ => none) "qosst_hal" = [] :=
  ⟨rfl, list_hardware_import_failure (fun _ => none) "qosst_hal" rfl⟩

/-!  Switch (src/qosst_hal/switch.py), meters (voltmeter.py,
powermeter.py, amperemeter.py) and DAC (dac.py) fakes.  These classes
keep no relevant instance state except `FakeDAC`'s `emission` and
`data`; their `open`/`close` bodies are empty (`open` being a Lean
keyword, the lifecycle methods are named `open_device` /
`close_device`). -/

/-- `FakeSwitch` (switch.py lines 67-104): no instance state. -/
structure FakeSwitch

/-- `FakeSwitch.__init__(_location, **kwargs)` (switch.py line 70):
ignores everything. -/
def FakeSwitch.init (_location : ℤ) : FakeSwitch := {}

/-- `FakeSwitch.open` (switch.py line 76): do nothing. -/
def FakeSwitch.open_device (sw : FakeSwitch) : FakeSwitch := sw

/-- `FakeSwitch.close` (switch.py line 81): do nothing. -/
def FakeSwitch.close_device (sw : FakeSwitch) : FakeSwitch := sw

/-- `FakeSwitch.set_state(state)` (switch.py lines 86-92): do nothing —
the commanded state is discarded, not cached. -/
def FakeSwitch.set_state (sw : FakeSwitch) (_state : ℤ) : FakeSwitch := sw

/-- `FakeSwitch.read_state()` (switch.py lines 94-101): always 0. -/
def FakeSwitch.read_state (_sw : FakeSwitch) : ℤ := 0

/-- `FakeVoltMeter` (voltmeter.py lines 49-79): no instance state. -/
structure FakeVoltMeter

/-- `FakeVoltMeter.__init__(_location, **_kwargs)`. -/
def FakeVoltMeter.init (_location : ℤ) : FakeVoltMeter := {}

/-- `FakeVoltMeter.open`: do nothing. -/
def FakeVoltMeter.open_device (m : FakeVoltMeter) : FakeVoltMeter := m

/-- `FakeVoltMeter.close`: do nothing. -/
def FakeVoltMeter.close_device (m : FakeVoltMeter) : FakeVoltMeter := m

/-- `FakeVoltMeter.get_voltage(**_kwargs)` (voltmeter.py lines 72-79):
always 0.0. -/
def FakeVoltMeter.get_voltage (_m : FakeVoltMeter) : ℚ := 0

/-- `FakePowerMeter` (powermeter.py lines 53-81): no instance state. -/
structure FakePowerMeter

/-- `FakePowerMeter.__init__(*_args, **_kwargs)`. -/
def FakePowerMeter.init : FakePowerMeter := {}

/-- `FakePowerMeter.open`: do nothing. -/
def FakePowerMeter.open_device (m : FakePowerMeter) : FakePowerMeter := m

/-- `FakePowerMeter.close`: do nothing. -/
def FakePowerMeter.close_device (m : FakePowerMeter) : FakePowerMeter := m

/-- `FakePowerMeter.read()` (powermeter.py lines 71-78): always `1e-6`,
i.e. the rational `1 / 1000000`. -/
def FakePowerMeter.read (_m : FakePowerMeter) : ℚ := 1 / 1000000

/-- `FakeAmpereMeter` (amperemeter.py lines 49-79): no instance state. -/
structure FakeAmpereMeter

/-- `FakeAmpereMeter.__init__(_location, **_kwargs)`. -/
def FakeAmpereMeter.init (_location : ℤ) : FakeAmpereMeter := {}

/-- `FakeAmpereMeter.open`: do nothing. -/
def FakeAmpereMeter.open_device (m : FakeAmpereMeter) : FakeAmpereMeter := m

/-- `FakeAmpereMeter.close`: do nothing. -/
def FakeAmpereMeter.close_device (m : FakeAmpereMeter) : FakeAmpereMeter := m

/-- `FakeAmpereMeter.get_current(**_kwargs)` (amperemeter.py lines
72-79): always 0.0. -/
def FakeAmpereMeter.get_current (_m : FakeAmpereMeter) : ℚ := 0

/-- `FakeDAC` (dac.py lines 68-118). -/
structure FakeDAC where
  emission : Bool
  data : Option (List (List ℚ))

/-- `FakeDAC.__init__(_location, _channels, **_kwargs)` (dac.py lines
84-89): start with no data and emission `False`. -/
def FakeDAC.init (_location _channels : ℤ) : FakeDAC :=
  { emission := false, data := none }

/-- `FakeDAC.open`: do nothing. -/
def FakeDAC.open_device (d : FakeDAC) : FakeDAC := d

/-- `FakeDAC.close`: do nothing. -/
def FakeDAC.close_device (d : FakeDAC) : FakeDAC := d

/-- `FakeDAC.set_emission_parameters(*_args, **_kwargs)` (dac.py lines
91-94): do nothing. -/
def FakeDAC.set_emission_parameters (d : FakeDAC) : FakeDAC := d

/-- `FakeDAC.load_data(data)` (dac.py lines 96-103): store the data. -/
def FakeDAC.load_data (d : FakeDAC) (data : List (List ℚ)) : FakeDAC :=
  { d with data := some data }

/-- `FakeDAC.start_emission()` (dac.py lines 105-109). -/
def FakeDAC.start_emission (d : FakeDAC) : FakeDAC :=
  { d with emission := true }

/-- `FakeDAC.stop_emission()` (dac.py lines 111-115). -/
def FakeDAC.stop_emission (d : FakeDAC) : FakeDAC :=
  { d with emission := false }

/-!  Operation sequences over the fakes, to express "regardless of
prior call sequence". -/

/-- Contract operations of a voltmeter. -/
inductive VoltMeterOp where
  | openOp | closeOp | getVoltageOp

/-- Effect of one voltmeter operation on a `FakeVoltMeter` (reads leave
the instance unchanged). -/
def FakeVoltMeter.step (m : FakeVoltMeter) : VoltMeterOp → FakeVoltMeter
  | .openOp => m.open_device
  | .closeOp => m.close_device
  | .getVoltageOp => m

/-- Run a sequence of voltmeter operations. -/
def FakeVoltMeter.run (m : FakeVoltMeter) (ops : List VoltMeterOp) :
    FakeVoltMeter :=
  ops.foldl FakeVoltMeter.step m

/-- Contract operations of a powermeter. -/
inductive PowerMeterOp where
  | openOp | closeOp | readOp

/-- Effect of one powermeter operation on a `FakePowerMeter`. -/
def FakePowerMeter.step (m : FakePowerMeter) : PowerMeterOp → FakePowerMeter
  | .openOp => m.open_device
  | .closeOp => m.close_device
  | .readOp => m

/-- Run a sequence of powermeter operations. -/
def FakePowerMeter.run (m : FakePowerMeter) (ops : List PowerMeterOp) :
    FakePowerMeter :=
  ops.foldl FakePowerMeter.step m

/-- Contract operations of an amperemeter. -/
inductive AmpereMeterOp where
  | openOp | closeOp | getCurrentOp

/-- Effect of one amperemeter operation on a `FakeAmpereMeter`. -/
def FakeAmpereMeter.step (m : FakeAmpereMeter) :
    AmpereMeterOp → FakeAmpereMeter
  | .openOp => m.open_device
  | .closeOp => m.close_device
  | .getCurrentOp => m

/-- Run a sequence of amperemeter operations. -/
def FakeAmpereMeter.run (m : FakeAmpereMeter) (ops : List AmpereMeterOp) :
    FakeAmpereMeter :=
  ops.foldl FakeAmpereMeter.step m

/-- Contract operations of a switch. -/
inductive SwitchOp where
  | openOp | closeOp | setStateOp (s : ℤ) | readStateOp

/-- Effect of one switch operation on a `FakeSwitch`. -/
def FakeSwitch.step (sw : FakeSwitch) : SwitchOp → FakeSwitch
  | .openOp => sw.open_device
  | .closeOp => sw.close_device
  | .setStateOp s => sw.set_state s
  | .readStateOp => sw

/-- Run a sequence of switch operations. -/
def FakeSwitch.run (sw : FakeSwitch) (ops : List SwitchOp) : FakeSwitch :=
  ops.foldl FakeSwitch.step sw

/-- Claim C7, counterexample: `FakeSwitch.read_state()` called right
after `set_state(5)` returns 0, not the commanded 5 — the fake does not
cache the last commanded state. -/
theorem fakeSwitch_cache_counterexample :
    ((FakeSwitch.init 0).set_state 5).read_state ≠ 5 := by decide

/-- Claim C7 (amended): for the fake switch — a switch whose hardware
cannot report its state — `read_state()` after `set_state(s)` returns
the constant 0 for every `s` and every starting instance; the
last-commanded-state caching required of real drivers by the contract is
deliberately not implemented by the fake (spec sections 8 and 9). -/
theorem fakeSwitch_read_state_after_set (sw : FakeSwitch) (s : ℤ) :
    (sw.set_state s).read_state = 0 := rfl

/-- Claim C9: each fake meter's read operation returns its fixed
documented constant — 0.0 for the voltmeter, `1e-6` for the powermeter,
0.0 for the amperemeter, 0 for the switch — after every prior sequence
of contract operations (open/close/reads, and for the switch also
arbitrary `set_state` commands). -/
theorem fake_reads_constant (v : List VoltMeterOp) (p : List PowerMeterOp)
    (a : List AmpereMeterOp) (s : List SwitchOp) (loc : ℤ) :
    ((FakeVoltMeter.init loc).run v).get_voltage = 0 ∧
    ((FakePowerMeter.init).run p).read = 1 / 1000000 ∧
    ((FakeAmpereMeter.init loc).run a).get_current = 0 ∧
    ((FakeSwitch.init loc).run s).read_state = 0 :=
  ⟨rfl, rfl, rfl, rfl⟩

/-- Claim C10: a fresh `FakeDAC` has `emission = False` and
`data = None`; `start_emission` / `stop_emission` set only the emission
flag and leave `data` unchanged; `load_data d` sets `data` to `d` and
leaves the emission flag unchanged. -/
theorem fakeDAC_state_frame (loc ch : ℤ) (d : FakeDAC)
    (x : List (List ℚ)) :
    (FakeDAC.init loc ch).emission = false ∧
    (FakeDAC.init loc ch).data = none ∧
    d.start_emission.emission = true ∧ d.start_emission.data = d.data ∧
    d.stop_emission.emission = false ∧ d.stop_emission.data = d.data ∧
    (d.load_data x).data = some x ∧ (d.load_data x).emission = d.emission :=
  ⟨rfl, rfl, rfl, rfl, rfl, rfl, rfl, rfl⟩

/-- Claim C8, counterexample: `FakeADC.get_data` called on a freshly
constructed instance, without a prior `set_acquisition_parameters`,
raises — it reads `self.acquisition_time`, which `__init__` never
assigns, so Python raises `AttributeError`.  The fake operations are
therefore not unconditionally exception-free. -/
theorem fake_never_raises_counterexample :
    (FakeADC.init 0 [0]).get_data [] (fun _ _ => 0) =
      .error (.attributeError "acquisition_time") := rfl

/-- Claim C8 (amended): the fake ADC operations succeed for every
argument when called in the documented order — `get_data` after
`set_acquisition_parameters` for `FakeADC` (provided the configured
`acquisition_time * target_rate` is nonnegative, else numpy rejects the
negative sample count), and `trigger` after `set_acquisition_parameters`
then `get_data` after `trigger` for `LoadingADC`; called before their
configuring operation, `get_data` and `trigger` fail with an
attribute-missing error (see the counterexample). -/
theorem fakes_succeed_in_documented_order (channels : List ℤ)
    (kw kw2 : List (String × ℚ)) (z : ℕ → ℕ → ℚ)
    (paths : List String) (np_load : String → List ℚ)
    (h : 0 ≤ ((kw.lookup "acquisition_time").getD 0) *
      ((kw.lookup "target_rate").getD 0)) :
    (∃ out, ((FakeADC.init 0 channels).set_acquisition_parameters
      kw).get_data kw2 z = .ok out) ∧
    (∃ adc2, ((LoadingADC.init 0 channels).set_acquisition_parameters
        [("paths", paths)]).trigger np_load = .ok adc2 ∧
      ∃ d, adc2.get_data = .ok d) := by
  have hsz : ¬ (pyInt (((kw.lookup "acquisition_time").getD 0) *
      ((kw.lookup "target_rate").getD 0)) < 0) := by
    unfold pyInt
    rw [if_pos h]
    exact not_lt.mpr (Int.floor_nonneg.mpr h)
  constructor
  · refine ⟨(List.range channels.length).map (fun ch =>
      (List.range (pyInt (((kw.lookup "acquisition_time").getD 0) *
          ((kw.lookup "target_rate").getD 0))).toNat).map
        (fun i => 0 + Rat.sqrt ((kw2.lookup "var").getD 1) * z ch i)), ?_⟩
    show (List.range channels.length).mapM _ = _
    refine mapM_ok_of_ok (fun ch => ?_) _
    show np_random_normal 0 (Rat.sqrt ((kw2.lookup "var").getD 1))
        (pyInt (((kw.lookup "acquisition_time").getD 0) *
          ((kw.lookup "target_rate").getD 0))) (z ch) >>=
        (fun x => pure (FakeADC.convert_impl x)) = _
    unfold np_random_normal
    rw [if_neg hsz]
    rfl
  · exact ⟨_, rfl, _, rfl⟩

/-- Witness for the amended C8 at a concrete input: one channel, empty
keyword bags (both acquisition parameters default to 0, of nonnegative
product), a single file path. -/
theorem fakes_succeed_in_documented_order_witness :
    (0 ≤ ((([] : List (String × ℚ)).lookup "acquisition_time").getD 0) *
      ((([] : List (String × ℚ)).lookup "target_rate").getD 0)) ∧
    (∃ out, ((FakeADC.init 0 [0]).set_acquisition_parameters
      []).get_data [] (fun _ _ => 0) = .ok out) ∧
    (∃ adc2, ((LoadingADC.init 0 [0]).set_acquisition_parameters
        [("paths", ["f1"])]).trigger (fun _ => [1, 2]) = .ok adc2 ∧
      ∃ d, adc2.get_data = .ok d) :=
  ⟨by simp,
    fakes_succeed_in_documented_order [0] [] [] (fun _ _ => 0) ["f1"]
      (fun _ => [1, 2]) (by simp)⟩

end QosstHal
